import Mathlib

/-!
Verification of the Job Posting REST API
(`src/app.py`, `src/api/models/JobModels.py`, `src/api/routes/jobs.py`,
`src/api/utils.py`) against its natural-language specification.

The repository contains two parallel implementations of the five CRUD
handlers: the motor-based ones in `src/app.py` (functions prefixed `app`
below) and the beanie-based router in `src/api/routes/jobs.py` (prefixed
`routes` below).  Both are embedded.

Datetimes are modelled as `Nat` Unix timestamps; `datetime.now()` becomes an
explicit `now : Nat` parameter of the parsing functions.  MongoDB documents
are modelled by the `JobDoc` structure and a database by an association list
from `BsonId` keys to documents.
-/

namespace JobApi

/-- `DegreeEnum` from `JobModels.py`: members `associate`, `bachelor`,
`master`, `phd` whose *string values* are `associate`, `bachelors`,
`masters`, `phd`. -/
inductive DegreeEnum where
  | associate | bachelor | master | phd
deriving DecidableEq, Repr

/-- The string value of each `DegreeEnum` member, exactly as written in
`JobModels.py` (note the plural forms `bachelors` and `masters`). -/
def DegreeEnum.value : DegreeEnum → String
  | .associate => "associate"
  | .bachelor => "bachelors"
  | .master => "masters"
  | .phd => "phd"

/-- Validation of a raw string into `DegreeEnum`: a `str`-valued `Enum` in
pydantic accepts exactly the member *values*. -/
def DegreeEnum.parse (s : String) : Option DegreeEnum :=
  if s = "associate" then some .associate
  else if s = "bachelors" then some .bachelor
  else if s = "masters" then some .master
  else if s = "phd" then some .phd
  else none

/-- `LanguageEnum` from `JobModels.py`: the 14 supported languages. -/
inductive LanguageEnum where
  | en | fr | es | it | ar | ja | de | ru | pl | pt | zh | ko | nl | hu
deriving DecidableEq, Repr

/-- The string value of each `LanguageEnum` member. -/
def LanguageEnum.value : LanguageEnum → String
  | .en => "english" | .fr => "french" | .es => "spanish" | .it => "italian"
  | .ar => "arabic" | .ja => "japanese" | .de => "german" | .ru => "russian"
  | .pl => "polish" | .pt => "portuguese" | .zh => "chinese" | .ko => "korean"
  | .nl => "dutch" | .hu => "hungarian"

/-- Validation of a raw string into `LanguageEnum` (by member value). -/
def LanguageEnum.parse (s : String) : Option LanguageEnum :=
  if s = "english" then some .en else if s = "french" then some .fr
  else if s = "spanish" then some .es else if s = "italian" then some .it
  else if s = "arabic" then some .ar else if s = "japanese" then some .ja
  else if s = "german" then some .de else if s = "russian" then some .ru
  else if s = "polish" then some .pl else if s = "portuguese" then some .pt
  else if s = "chinese" then some .zh else if s = "korean" then some .ko
  else if s = "dutch" then some .nl else if s = "hungarian" then some .hu
  else none

/-- `WorkModelEnum` from `JobModels.py`: remote / on-site / hybrid. -/
inductive WorkModelEnum where
  | rm | os | hy
deriving DecidableEq, Repr

/-- The string value of each `WorkModelEnum` member. -/
def WorkModelEnum.value : WorkModelEnum → String
  | .rm => "remote" | .os => "on-site" | .hy => "hybrid"

/-- Validation of a raw string into `WorkModelEnum` (by member value). -/
def WorkModelEnum.parse (s : String) : Option WorkModelEnum :=
  if s = "remote" then some .rm else if s = "on-site" then some .os
  else if s = "hybrid" then some .hy else none

/-- `validate_unique_list` from `src/api/utils.py`: raises
`PydanticCustomError` with message `List must be unique` when
`len(v) != len(set(v))`, returns `v` otherwise.  `len(set(v))` is the number
of distinct elements of `v`, i.e. `v.dedup.length`. -/
def validate_unique_list {α : Type} [DecidableEq α] (v : List α) :
    Except String (List α) :=
  if v.length ≠ v.dedup.length then .error "List must be unique" else .ok v

/-- `DegreeModel` from `JobModels.py`: a required `level` and an optional
`major`. -/
structure DegreeModel where
  level : DegreeEnum
  major : Option String
deriving DecidableEq, Repr

/-- Validation of a raw degree object into `DegreeModel`. -/
def DegreeModel.parse (level : String) (major : Option String) :
    Option DegreeModel :=
  match DegreeEnum.parse level with
  | some l => some { level := l, major := major }
  | none => none

/-- A MongoDB `_id` value as it occurs in this code base: either a proper
`ObjectId` (carrying its 24-hex-character string form) or a raw Python
string.  The distinction matters because `src/app.py` line 109 queries
`{"_id": id}` with the raw string while every inserted document has an
`ObjectId` key, and in BSON an `ObjectId` never equals a string. -/
inductive BsonId where
  | oid (hex : String)
  | str (s : String)
deriving DecidableEq, Repr

/-- Whether a string can be parsed into an `ObjectId` (`bson.ObjectId(id)` /
the beanie `PydanticObjectId`): exactly 24 hexadecimal characters. -/
def isValidObjectId (s : String) : Bool :=
  s.length = 24 && s.data.all (fun c =>
    c.isDigit || (97 ≤ c.toNat && c.toNat ≤ 102) || (65 ≤ c.toNat && c.toNat ≤ 70))

/-- A persisted Job document, i.e. the fields a record in the `jobs`
collection can carry.  `created` and `updated` are `Option` because the
code can produce documents without them: `JobModel.created` and
`JobModel.updated` are declared with `exclude=True` in `JobModels.py`, so
`model_dump` drops them and an inserted document has neither; `updated`
appears later only through the `$set` of an update. -/
structure JobDoc where
  title : String
  degree : DegreeModel
  desc : String
  skills : List String
  lang : List LanguageEnum
  work_model : WorkModelEnum
  created : Option Nat
  updated : Option Nat
deriving DecidableEq, Repr

/-- The database: the `jobs` collection as an association list from `_id`
keys to documents, in natural (insertion) order. -/
abbrev JobDB := List (BsonId × JobDoc)

/-- `find_one({"_id": key})` / `JobModel.get(key)`: the first document whose
`_id` equals `key`, if any. -/
def findOne (key : BsonId) : JobDB → Option JobDoc
  | [] => none
  | (k, d) :: rest => if k = key then some d else findOne key rest

/-- `delete_one({"_id": key})`: removes the first matching document and
reports `deleted_count` (1 if a document matched, else 0). -/
def deleteOne (key : BsonId) : JobDB → Nat × JobDB
  | [] => (0, [])
  | (k, d) :: rest =>
    if k = key then (1, rest)
    else
      let r := deleteOne key rest
      (r.1, (k, d) :: r.2)

/-- A field of a raw JSON request body: absent from the object, explicitly
`null`, or carrying a value.  Pydantic distinguishes absent (default /
default_factory applies) from `null` (validated as `None` for `Optional`
fields). -/
inductive FieldVal (α : Type) where
  | absent | null | val (a : α)
deriving DecidableEq, Repr

/-- The validated in-memory `JobModel` (`JobModels.py`).  The `id` field is
commented out in the source; the beanie `Document` class supplies `id` from the
stored `_id`.  `created` is a required datetime with
`default_factory=datetime.now`; `updated` is optional with default `None`. -/
structure JobModel where
  title : String
  degree : DegreeModel
  desc : String
  skills : List String
  lang : List LanguageEnum
  work_model : WorkModelEnum
  created : Nat
  updated : Option Nat
deriving DecidableEq, Repr

/-- The raw JSON body of `POST /jobs/` with all required keys present;
enum- and list-valued fields are raw strings still to be validated. -/
structure JobBody where
  title : String
  degreeLevel : String
  degreeMajor : Option String
  desc : String
  skills : List String
  lang : List String
  work_model : String
  created : FieldVal Nat
  updated : FieldVal Nat
deriving DecidableEq, Repr

/-- The errors of the validation result of one field (empty on success);
pydantic collects the errors of all fields. -/
def errsOf {α : Type} : Except (List String) α → List String
  | .ok _ => []
  | .error es => es

/-- Validation of the `degree` field into `DegreeModel`. -/
def parseDegreeField (level : String) (major : Option String) :
    Except (List String) DegreeModel :=
  match DegreeEnum.parse level with
  | some l => .ok { level := l, major := major }
  | none => .error ["Input should be a valid DegreeEnum"]

/-- Validation of a `UniqueStrList` field: the
`BeforeValidator(validate_unique_list)` runs on the raw list. -/
def parseUniqueStrList (v : List String) : Except (List String) (List String) :=
  match validate_unique_list v with
  | .ok w => .ok w
  | .error e => .error [e]

/-- Validation of the `lang` field (`UniqueGenericList[LanguageEnum]`): the
uniqueness `BeforeValidator` runs on the raw list first, then each item is
validated against the enum. -/
def parseLangField (v : List String) : Except (List String) (List LanguageEnum) :=
  match validate_unique_list v with
  | .error e => .error [e]
  | .ok w =>
    match w.mapM LanguageEnum.parse with
    | some l => .ok l
    | none => .error ["Input should be a valid LanguageEnum"]

/-- Validation of the `work_model` field. -/
def parseWorkModelField (s : String) : Except (List String) WorkModelEnum :=
  match WorkModelEnum.parse s with
  | some w => .ok w
  | none => .error ["Input should be a valid WorkModelEnum"]

/-- Validation of `JobModel.created`: required (`null` rejected), filled by
`default_factory=datetime.now` when absent, constrained by `gt=0`. -/
def parseCreatedField (c : FieldVal Nat) (now : Nat) : Except (List String) Nat :=
  match c with
  | .absent => .ok now
  | .null => .error ["created: input should be a valid datetime"]
  | .val v => if 0 < v then .ok v else .error ["created: input should be greater than 0"]

/-- Validation of `JobModel.updated`: optional with default `None`,
constrained by `gt=0` when supplied. -/
def parseJobUpdatedField (u : FieldVal Nat) : Except (List String) (Option Nat) :=
  match u with
  | .absent => .ok none
  | .null => .ok none
  | .val v => if 0 < v then .ok (some v) else .error ["updated: input should be greater than 0"]

/-- Pydantic validation of a `POST /jobs/` body into `JobModel`: every field
is validated independently and all errors are collected; the model is built
only when no field fails.  `now` is the time `datetime.now()` would return
for the `created` default factory. -/
def parseJobModel (b : JobBody) (now : Nat) : Except (List String) JobModel :=
  match parseDegreeField b.degreeLevel b.degreeMajor, parseUniqueStrList b.skills,
        parseLangField b.lang, parseWorkModelField b.work_model,
        parseCreatedField b.created now, parseJobUpdatedField b.updated with
  | .ok dg, .ok sk, .ok lg, .ok wm, .ok cr, .ok up =>
      .ok { title := b.title, degree := dg, desc := b.desc, skills := sk,
            lang := lg, work_model := wm, created := cr, updated := up }
  | dg, sk, lg, wm, cr, up =>
      .error (errsOf dg ++ errsOf sk ++ errsOf lg ++ errsOf wm ++ errsOf cr ++ errsOf up)

/-- The validated `UpdateJobModel` (`JobModels.py`): every field optional
with default `None`, except that `updated` has
`default_factory=datetime.now`. -/
structure UpdateJobModel where
  title : Option String
  degree : Option DegreeModel
  desc : Option String
  skills : Option (List String)
  lang : Option (List LanguageEnum)
  work_model : Option WorkModelEnum
  updated : Option Nat
deriving DecidableEq, Repr

/-- The raw JSON body of `PUT /jobs/{id}`; every field may be absent, null,
or a raw value. -/
structure UpdateBody where
  title : FieldVal String
  degree : FieldVal (String × Option String)
  desc : FieldVal String
  skills : FieldVal (List String)
  lang : FieldVal (List String)
  work_model : FieldVal String
  updated : FieldVal Nat
deriving DecidableEq, Repr

/-- Validation of an optional field of `UpdateJobModel` with default `None`:
absent or null gives `none`, a value is validated by `f`. -/
def parseOptField {α β : Type} (f : α → Except (List String) β) :
    FieldVal α → Except (List String) (Option β)
  | .absent => .ok none
  | .null => .ok none
  | .val a => (f a).map some

/-- Validation of `UpdateJobModel.updated`: `default_factory=datetime.now`
fills the current time when the key is absent; an explicit `null` gives
`None`; a supplied value is constrained by `gt=0`. -/
def parseUpdUpdatedField (u : FieldVal Nat) (now : Nat) :
    Except (List String) (Option Nat) :=
  match u with
  | .absent => .ok (some now)
  | .null => .ok none
  | .val v => if 0 < v then .ok (some v) else .error ["updated: input should be greater than 0"]

/-- Pydantic validation of a `PUT /jobs/{id}` body into `UpdateJobModel`. -/
def parseUpdateBody (b : UpdateBody) (now : Nat) :
    Except (List String) UpdateJobModel :=
  match parseOptField (fun s => .ok s) b.title,
        parseOptField (fun p => parseDegreeField p.1 p.2) b.degree,
        parseOptField (fun s => .ok s) b.desc,
        parseOptField parseUniqueStrList b.skills,
        parseOptField parseLangField b.lang,
        parseOptField parseWorkModelField b.work_model,
        parseUpdUpdatedField b.updated now with
  | .ok t, .ok dg, .ok ds, .ok sk, .ok lg, .ok wm, .ok up =>
      .ok { title := t, degree := dg, desc := ds, skills := sk, lang := lg,
            work_model := wm, updated := up }
  | t, dg, ds, sk, lg, wm, up =>
      .error (errsOf t ++ errsOf dg ++ errsOf ds ++ errsOf sk ++ errsOf lg ++
              errsOf wm ++ errsOf up)

/-- The number of keys of
`{k: v for k, v in job.model_dump(by_alias=True).items() if v is not None}`:
the handlers branch on whether this is at least 1. -/
def UpdateJobModel.strippedSize (m : UpdateJobModel) : Nat :=
  (if m.title.isSome then 1 else 0) + (if m.degree.isSome then 1 else 0) +
  (if m.desc.isSome then 1 else 0) + (if m.skills.isSome then 1 else 0) +
  (if m.lang.isSome then 1 else 0) + (if m.work_model.isSome then 1 else 0) +
  (if m.updated.isSome then 1 else 0)

/-- Mongo `$set` of the stripped update dict onto a stored document: every
present key overwrites the stored field, absent keys leave it unchanged.
`created` is not a field of `UpdateJobModel`, so it is never a key of the
dict and is always preserved. -/
def applySet (m : UpdateJobModel) (d : JobDoc) : JobDoc :=
  { title := m.title.getD d.title,
    degree := m.degree.getD d.degree,
    desc := m.desc.getD d.desc,
    skills := m.skills.getD d.skills,
    lang := m.lang.getD d.lang,
    work_model := m.work_model.getD d.work_model,
    created := d.created,
    updated := match m.updated with | some t => some t | none => d.updated }

/-- `find_one_and_update({"_id": key}, {"$set": ...}, ReturnDocument.AFTER)`:
applies the `$set` to the first matching document in place and returns the
document after the update (or `none` when nothing matched). -/
def findOneAndUpdate (key : BsonId) (m : UpdateJobModel) :
    JobDB → Option JobDoc × JobDB
  | [] => (none, [])
  | (k, d) :: rest =>
    if k = key then (some (applySet m d), (k, applySet m d) :: rest)
    else
      let r := findOneAndUpdate key m rest
      (r.1, (k, d) :: r.2)

/-- The serialized response body FastAPI produces from
`response_model=JobModel, response_model_by_alias=False`.  Because
`JobModel.created` and `JobModel.updated` carry `exclude=True`, `model_dump`
omits both from the body: they are `none` here whatever the stored document
held. -/
structure JobOut where
  id : String
  title : String
  degree : DegreeModel
  desc : String
  skills : List String
  lang : List LanguageEnum
  work_model : WorkModelEnum
  created : Option Nat
  updated : Option Nat
deriving DecidableEq, Repr

/-- Serialization of a stored document through the `JobModel` response
model: `id` is the string form of `_id`; `created` and `updated` are
dropped by their `exclude=True`. -/
def serializeJob (id : String) (d : JobDoc) : JobOut :=
  { id := id, title := d.title, degree := d.degree, desc := d.desc,
    skills := d.skills, lang := d.lang, work_model := d.work_model,
    created := none, updated := none }

/-- `JobCollection` from `JobModels.py`: the envelope wrapping the list
response. -/
structure JobCollection where
  jobs : List JobOut
deriving DecidableEq, Repr

/-- The string form of an `_id` key. -/
def bsonIdString : BsonId → String
  | .oid h => h
  | .str s => s

/-- The failure modes a request can surface, with their HTTP status. -/
inductive ApiError where
  | notFound
  | unprocessable
  | invalidIdRaised
deriving DecidableEq, Repr

/-- The HTTP status of each failure mode: `HTTPException(404)` for
`notFound`; 422 for a FastAPI request-validation failure; 500 for the
`bson.errors.InvalidId` that `ObjectId(id)` raises in `src/app.py` and no
handler catches. -/
def ApiError.status : ApiError → Nat
  | .notFound => 404
  | .unprocessable => 422
  | .invalidIdRaised => 500

/-- Whether an HTTP status is a client error (4xx). -/
def isClientErrorStatus (s : Nat) : Bool := 400 ≤ s && s < 500

/-- `model_dump(by_alias=True, exclude=["id"])` as passed to `insert_one` in
`src/app.py` `create_job`: `created` and `updated` are dropped by their
`exclude=True`, so the inserted document carries neither. -/
def JobModel.dumpForInsert (j : JobModel) : JobDoc :=
  { title := j.title, degree := j.degree, desc := j.desc, skills := j.skills,
    lang := j.lang, work_model := j.work_model, created := none, updated := none }

/-- `create_job` from `src/app.py` (lines 32-44): insert the dumped model,
re-fetch the inserted document by its id and return it (FastAPI serializes
it with status 201).  `freshId` is the `ObjectId` MongoDB assigns. -/
def appCreateJob (j : JobModel) (freshId : String) (db : JobDB) :
    Option JobOut × JobDB :=
  let db' := db ++ [(.oid freshId, j.dumpForInsert)]
  ((findOne (.oid freshId) db').map (serializeJob freshId), db')

/-- `POST /jobs/` end to end through `src/app.py`: FastAPI validates the
body into `JobModel` before the handler runs (422 on failure, with the
database untouched), then `create_job` inserts. -/
def postJobEndpoint (b : JobBody) (now : Nat) (freshId : String) (db : JobDB) :
    Except (List String) (Option JobOut) × JobDB :=
  match parseJobModel b now with
  | .error es => (.error es, db)
  | .ok j =>
    let r := appCreateJob j freshId db
    (.ok r.1, r.2)

/-- `list_jobs` from `src/app.py` (lines 53-59): `find().to_list(1000)`
returns at most the first 1000 documents, wrapped in `JobCollection`. -/
def appListJobs (db : JobDB) : JobCollection :=
  { jobs := (db.take 1000).map (fun kd => serializeJob (bsonIdString kd.1) kd.2) }

/-- `list_jobs` from `src/api/routes/jobs.py` (lines 43-49):
`JobModel.find_all().to_list()` has no limit argument and returns every
document. -/
def routesListJobs (db : JobDB) : JobCollection :=
  { jobs := db.map (fun kd => serializeJob (bsonIdString kd.1) kd.2) }

/-- `show_job` from `src/app.py` (lines 68-77): `ObjectId(id)` raises
`InvalidId` on a malformed id; otherwise `find_one` then 404 on absence. -/
def appShowJob (id : String) (db : JobDB) : Except ApiError JobOut :=
  if isValidObjectId id then
    match findOne (.oid id) db with
    | some d => .ok (serializeJob id d)
    | none => .error .notFound
  else .error .invalidIdRaised

/-- `show_job` from `src/api/routes/jobs.py` (lines 57-66): the
`PydanticObjectId` path parameter rejects a malformed id with a 422 before
the handler runs; otherwise `JobModel.get(id)` then 404 on absence. -/
def routesShowJob (id : String) (db : JobDB) : Except ApiError JobOut :=
  if isValidObjectId id then
    match findOne (.oid id) db with
    | some d => .ok (serializeJob id d)
    | none => .error .notFound
  else .error .unprocessable

/-- `update_job` from `src/app.py` (lines 86-112): strip the `None` fields
of the dumped body; if at least one key remains, `find_one_and_update` with
`{"_id": ObjectId(id)}` (`ObjectId(id)` raising on a malformed id) and 404
when nothing matched; otherwise the handler runs
`find_one({"_id": id})` with the raw *string* `id` (line 109) and returns
the document found, 404 when none. -/
def appUpdateJob (id : String) (m : UpdateJobModel) (db : JobDB) :
    Except ApiError JobOut × JobDB :=
  if 1 ≤ m.strippedSize then
    if isValidObjectId id then
      match findOneAndUpdate (.oid id) m db with
      | (some d, db') => (.ok (serializeJob id d), db')
      | (none, db') => (.error .notFound, db')
    else (.error .invalidIdRaised, db)
  else
    match findOne (.str id) db with
    | some d => (.ok (serializeJob id d), db)
    | none => (.error .notFound, db)

/-- `update_job` from `src/api/routes/jobs.py` (lines 74-104): the
`PydanticObjectId` path parameter rejects a malformed id with 422; the
handler strips `None` fields; with at least one key left it fetches the
document, 404 when absent, otherwise applies `update({"$set": job})` and
returns the result of a second `JobModel.get(id)` (an `Option`, returned as
the body with no further check in the source); with no key left it returns
the fetched document, 404 when absent. -/
def routesUpdateJob (id : String) (m : UpdateJobModel) (db : JobDB) :
    Except ApiError (Option JobOut) × JobDB :=
  if isValidObjectId id then
    if 1 ≤ m.strippedSize then
      match findOne (.oid id) db with
      | some _ =>
        let db' := (findOneAndUpdate (.oid id) m db).2
        (.ok ((findOne (.oid id) db').map (serializeJob id)), db')
      | none => (.error .notFound, db)
    else
      match findOne (.oid id) db with
      | some d => (.ok (some (serializeJob id d)), db)
      | none => (.error .notFound, db)
  else (.error .unprocessable, db)

/-- `delete_job` from `src/app.py` (lines 116-125): `ObjectId(id)` raises on
a malformed id; `delete_one`, then 204 when `deleted_count == 1` and 404
otherwise. -/
def appDeleteJob (id : String) (db : JobDB) : Except ApiError Unit × JobDB :=
  if isValidObjectId id then
    let r := deleteOne (.oid id) db
    if r.1 = 1 then (.ok (), r.2) else (.error .notFound, r.2)
  else (.error .invalidIdRaised, db)

/-- `delete_job` from `src/api/routes/jobs.py` (lines 107-117): 422 on a
malformed id; fetch the document, delete it and return 204 when present,
404 otherwise. -/
def routesDeleteJob (id : String) (db : JobDB) : Except ApiError Unit × JobDB :=
  if isValidObjectId id then
    match findOne (.oid id) db with
    | some _ => (.ok (), (deleteOne (.oid id) db).2)
    | none => (.error .notFound, db)
  else (.error .unprocessable, db)

/-- Decidable equality for `Except`, so that concrete runs of the handlers
can be checked by `decide`. -/
instance {ε α : Type} [DecidableEq ε] [DecidableEq α] : DecidableEq (Except ε α)
  | .ok x, .ok y =>
    if h : x = y then .isTrue (by rw [h])
    else .isFalse (fun he => h (by cases he; rfl))
  | .ok _, .error _ => .isFalse (fun he => by cases he)
  | .error _, .ok _ => .isFalse (fun he => by cases he)
  | .error e, .error f =>
    if h : e = f then .isTrue (by rw [h])
    else .isFalse (fun he => h (by cases he; rfl))

/-- `len(v) == len(set(v))` holds exactly when the list has no duplicates. -/
theorem length_eq_dedup_length_iff {α : Type} [DecidableEq α] (l : List α) :
    l.length = l.dedup.length ↔ l.Nodup := by
  constructor
  · intro h
    have hsub : l.dedup.Sublist l := List.dedup_sublist l
    have : l.dedup = l := hsub.eq_of_length h.symm
    exact this ▸ List.nodup_dedup l
  · intro h
    rw [List.dedup_eq_self.mpr h]

/-- `validate_unique_list` fails with the `List must be unique` error exactly
on lists with a duplicate element. -/
theorem validate_unique_list_error_iff {α : Type} [DecidableEq α] (v : List α) :
    validate_unique_list v = .error "List must be unique" ↔ ¬ v.Nodup := by
  unfold validate_unique_list
  split
  · simp_all [length_eq_dedup_length_iff]
  · simp_all [← length_eq_dedup_length_iff]

/-- `find_one` succeeds exactly when the key occurs in the collection. -/
theorem findOne_isSome_iff (key : BsonId) :
    ∀ (db : JobDB), (findOne key db).isSome ↔ key ∈ db.map Prod.fst
  | [] => by simp [findOne]
  | (k, d) :: rest => by
    by_cases h : k = key
    · simp [findOne, h]
    · simp only [findOne, if_neg h, List.map_cons, List.mem_cons]
      rw [findOne_isSome_iff key rest]
      constructor
      · exact fun hm => Or.inr hm
      · rintro (hk | hm)
        · exact absurd hk.symm h
        · exact hm

/-- The `deleted_count` of `delete_one`: 1 when the key occurs, else 0. -/
theorem deleteOne_fst (key : BsonId) :
    ∀ (db : JobDB), (deleteOne key db).1 = if key ∈ db.map Prod.fst then 1 else 0
  | [] => by simp [deleteOne]
  | (k, d) :: rest => by
    by_cases h : k = key
    · simp [deleteOne, h]
    · simp only [deleteOne, if_neg h, List.map_cons, List.mem_cons]
      rw [deleteOne_fst key rest]
      have : ¬ key = k := fun hk => h hk.symm
      by_cases hm : key ∈ rest.map Prod.fst <;> simp [hm, this]

/-- After `delete_one` removed a key from a collection with pairwise distinct
keys, the key is gone. -/
theorem deleteOne_not_mem (key : BsonId) :
    ∀ (db : JobDB), (db.map Prod.fst).Nodup →
      key ∉ (deleteOne key db).2.map Prod.fst
  | [], _ => by simp [deleteOne]
  | (k, d) :: rest, hnd => by
    simp only [List.map_cons, List.nodup_cons] at hnd
    by_cases h : k = key
    · simpa [deleteOne, h] using fun hm => hnd.1 (h ▸ hm)
    · simp only [deleteOne, if_neg h, List.map_cons, List.mem_cons]
      rintro (hk | hm)
      · exact h hk.symm
      · exact deleteOne_not_mem key rest hnd.2 hm

/-- The document `find_one_and_update` returns (`ReturnDocument.AFTER`): the
matched document with the `$set` applied. -/
theorem findOneAndUpdate_fst (key : BsonId) (m : UpdateJobModel) :
    ∀ (db : JobDB),
      (findOneAndUpdate key m db).1 = (findOne key db).map (applySet m)
  | [] => by simp [findOneAndUpdate, findOne]
  | (k, d) :: rest => by
    by_cases h : k = key
    · simp [findOneAndUpdate, findOne, h]
    · simp only [findOneAndUpdate, findOne, if_neg h]
      exact findOneAndUpdate_fst key m rest

/-- Re-fetching the updated key after `find_one_and_update` (or after the
beanie `update` of the fetched document) yields the stored document with the
`$set` applied. -/
theorem findOne_findOneAndUpdate_self (key : BsonId) (m : UpdateJobModel) :
    ∀ (db : JobDB),
      findOne key (findOneAndUpdate key m db).2 = (findOne key db).map (applySet m)
  | [] => by simp [findOneAndUpdate, findOne]
  | (k, d) :: rest => by
    by_cases h : k = key
    · simp [findOneAndUpdate, findOne, h]
    · simp only [findOneAndUpdate, findOne, if_neg h]
      exact findOne_findOneAndUpdate_self key m rest

/-- Inversion of a successful `UpdateJobModel` validation: every field of the
model is the result of the validation of the corresponding body field. -/
theorem parseUpdateBody_ok_fields (b : UpdateBody) (now : Nat)
    (m : UpdateJobModel) (h : parseUpdateBody b now = .ok m) :
    parseOptField (fun s => .ok s) b.title = .ok m.title ∧
    parseOptField (fun p => parseDegreeField p.1 p.2) b.degree = .ok m.degree ∧
    parseOptField (fun s => .ok s) b.desc = .ok m.desc ∧
    parseOptField parseUniqueStrList b.skills = .ok m.skills ∧
    parseOptField parseLangField b.lang = .ok m.lang ∧
    parseOptField parseWorkModelField b.work_model = .ok m.work_model ∧
    parseUpdUpdatedField b.updated now = .ok m.updated := by
  unfold parseUpdateBody at h
  split at h
  · injection h with h2
    subst h2
    simp_all
  · simp at h

/-- The write branch of the `src/app.py` `update_job`: with a non-empty
stripped field set, a well-formed id and a matching stored document, the
handler returns the document with the `$set` applied, and that is what the
collection then stores under the id. -/
theorem appUpdateJob_write (id : String) (m : UpdateJobModel) (db : JobDB)
    (d0 : JobDoc) (hsize : 1 ≤ m.strippedSize) (hvalid : isValidObjectId id)
    (hfind : findOne (.oid id) db = some d0) :
    (appUpdateJob id m db).1 = .ok (serializeJob id (applySet m d0)) ∧
    findOne (.oid id) (appUpdateJob id m db).2 = some (applySet m d0) := by
  have h1 : (findOneAndUpdate (.oid id) m db).1 = some (applySet m d0) := by
    rw [findOneAndUpdate_fst, hfind]; rfl
  have h2 : findOne (.oid id) (findOneAndUpdate (.oid id) m db).2 =
      some (applySet m d0) := by
    rw [findOne_findOneAndUpdate_self, hfind]; rfl
  unfold appUpdateJob
  rw [if_pos hsize, if_pos hvalid]
  rcases hfu : findOneAndUpdate (.oid id) m db with ⟨r1, r2⟩
  rw [hfu] at h1 h2
  simp only at h1 h2
  subst h1
  exact ⟨rfl, h2⟩

/-- The write branch of the `src/api/routes/jobs.py` `update_job`: same
observable behaviour (the body is the re-fetched document, wrapped in
`some`). -/
theorem routesUpdateJob_write (id : String) (m : UpdateJobModel) (db : JobDB)
    (d0 : JobDoc) (hsize : 1 ≤ m.strippedSize) (hvalid : isValidObjectId id)
    (hfind : findOne (.oid id) db = some d0) :
    (routesUpdateJob id m db).1 = .ok (some (serializeJob id (applySet m d0))) ∧
    findOne (.oid id) (routesUpdateJob id m db).2 = some (applySet m d0) := by
  have h2 : findOne (.oid id) (findOneAndUpdate (.oid id) m db).2 =
      some (applySet m d0) := by
    rw [findOne_findOneAndUpdate_self, hfind]; rfl
  unfold routesUpdateJob
  rw [if_pos hvalid, if_pos hsize, hfind]
  simp [h2]

/-- A duplicate in `skills` makes pydantic validation of the whole body fail,
with the uniqueness message among the collected errors. -/
theorem parseJobModel_skills_error (b : JobBody) (now : Nat) (e : String)
    (h : parseUniqueStrList b.skills = .error [e]) :
    ∃ es, parseJobModel b now = .error es ∧ e ∈ es := by
  rcases hdg : parseDegreeField b.degreeLevel b.degreeMajor with es1 | dg <;>
  rcases hlg : parseLangField b.lang with es3 | lg <;>
  rcases hwm : parseWorkModelField b.work_model with es4 | wm <;>
  rcases hcr : parseCreatedField b.created now with es5 | cr <;>
  rcases hup : parseJobUpdatedField b.updated with es6 | up <;>
  · simp only [parseJobModel, hdg, h, hlg, hwm, hcr, hup]
    exact ⟨_, rfl, by simp [errsOf]⟩

/-- A duplicate in `lang` makes pydantic validation of the whole body fail,
with the uniqueness message among the collected errors. -/
theorem parseJobModel_lang_error (b : JobBody) (now : Nat) (e : String)
    (h : parseLangField b.lang = .error [e]) :
    ∃ es, parseJobModel b now = .error es ∧ e ∈ es := by
  rcases hdg : parseDegreeField b.degreeLevel b.degreeMajor with es1 | dg <;>
  rcases hsk : parseUniqueStrList b.skills with es2 | sk <;>
  rcases hwm : parseWorkModelField b.work_model with es4 | wm <;>
  rcases hcr : parseCreatedField b.created now with es5 | cr <;>
  rcases hup : parseJobUpdatedField b.updated with es6 | up <;>
  · simp only [parseJobModel, hdg, hsk, h, hwm, hcr, hup]
    exact ⟨_, rfl, by simp [errsOf]⟩

/-- A well-formed `ObjectId` string (24 hexadecimal characters). -/
def oidA : String := "aaaaaaaaaaaaaaaaaaaaaaaa"

/-- A second, distinct well-formed `ObjectId` string. -/
def oidB : String := "bbbbbbbbbbbbbbbbbbbbbbbb"

/-- A third well-formed `ObjectId` string, used as a fresh insert id. -/
def oidC : String := "cccccccccccccccccccccccc"

/-- A stored document used in the concrete runs. -/
def baseDoc : JobDoc :=
  { title := "Engineer", degree := { level := .associate, major := none },
    desc := "d", skills := ["go"], lang := [.en], work_model := .rm,
    created := none, updated := none }

/-- A one-record database holding `baseDoc` under the `ObjectId` `oidA`. -/
def dbOne : JobDB := [(.oid oidA, baseDoc)]

/-- A PUT body with every field explicitly `null`. -/
def allNullBody : UpdateBody :=
  { title := .null, degree := .null, desc := .null, skills := .null,
    lang := .null, work_model := .null, updated := .null }

/-- The `UpdateJobModel` that `allNullBody` validates into: every field
`None`, so the stripped dict is empty. -/
def nullUpdate : UpdateJobModel :=
  { title := none, degree := none, desc := none, skills := none, lang := none,
    work_model := none, updated := none }

/-- C1: the claim fails on `src/app.py`.  At the failing input — the record
`baseDoc` stored under `ObjectId(oidA)` and a PUT body with every field
explicitly null — the stripped field set is empty and the handler takes the
no-op branch, but that branch looks the record up with
`find_one({"_id": id})` where `id` is the raw string (line 109), which never
equals the stored `ObjectId` key: the handler answers 404, not 200, and the
no-op path never returns an existing record.  The router variant
(`routes/jobs.py`) does return the record unchanged with the write skipped,
which is what the claim and the code comment describe. -/
theorem app_noop_update_404_divergence :
    parseUpdateBody allNullBody 100 = .ok nullUpdate ∧
    nullUpdate.strippedSize = 0 ∧
    findOne (.oid oidA) dbOne = some baseDoc ∧
    appUpdateJob oidA nullUpdate dbOne = (.error .notFound, dbOne) ∧
    routesUpdateJob oidA nullUpdate dbOne =
      (.ok (some (serializeJob oidA baseDoc)), dbOne) := by decide

/-- The database after 1001 inserts of `baseDoc`. -/
def db1001 : JobDB := List.replicate 1001 (BsonId.oid oidA, baseDoc)

/-- C2: the cap holds for the `src/app.py` handler (`to_list(1000)`), but
the `src/api/routes/jobs.py` handler calls `find_all().to_list()` with no
limit, contradicting its own docstring ("limited to 1000 results"): on a
database of 1001 documents it returns all 1001. -/
theorem list_cap_divergence :
    (appListJobs db1001).jobs.length = 1000 ∧
    (routesListJobs db1001).jobs.length = 1001 ∧
    (appListJobs dbOne).jobs.length = 1 ∧
    (routesListJobs dbOne).jobs.length = 1 := by
  have h : db1001.length = 1001 := by
    rw [db1001, List.length_replicate]
  refine ⟨?_, ?_, ?_, ?_⟩
  · simp only [appListJobs, List.length_map, List.length_take, h]
    omega
  · simp only [routesListJobs, List.length_map, h]
  · simp [appListJobs, dbOne]
  · simp [routesListJobs, dbOne]

/-- The valid POST body of the create example (with the degree level spelt
`bachelors`, the string the enum actually accepts). -/
def bodyC3 : JobBody :=
  { title := "Engineer", degreeLevel := "bachelors", degreeMajor := none,
    desc := "x", skills := ["go"], lang := ["english"], work_model := "remote",
    created := .absent, updated := .absent }

/-- The `JobModel` that `bodyC3` validates into at time 5: the default
factory fills `created := 5`. -/
def jobC3 : JobModel :=
  { title := "Engineer", degree := { level := .bachelor, major := none },
    desc := "x", skills := ["go"], lang := [.en], work_model := .rm,
    created := 5, updated := none }

/-- C3: evaluation of `create_job` (`src/app.py`) at a valid payload.
Validation does assign `created := 5` (the current time) on the in-memory
model, and the response carries the fresh non-empty id — but
`model_dump(by_alias=True, exclude=["id"])` drops `created` (declared
`exclude=True`), so the inserted document has no `created` field, and the
response serialization drops it again, so the 201 body has no `created`
either: the record is not persisted in full and the body contains no
creation timestamp, contrary to the claim. -/
theorem create_drops_created_divergence :
    parseJobModel bodyC3 5 = .ok jobC3 ∧
    jobC3.created = 5 ∧
    appCreateJob jobC3 oidC [] =
      (some (serializeJob oidC jobC3.dumpForInsert),
       [(.oid oidC, jobC3.dumpForInsert)]) ∧
    (serializeJob oidC jobC3.dumpForInsert).id = oidC ∧
    oidC ≠ "" ∧
    (serializeJob oidC jobC3.dumpForInsert).created = none ∧
    jobC3.dumpForInsert.created = none := by decide

/-- A POST body with the same string in `skills` and in `lang`: each list is
duplicate-free on its own, so validation accepts it (no cross-field
uniqueness). -/
def crossFieldBody : JobBody :=
  { title := "t", degreeLevel := "associate", degreeMajor := none,
    desc := "d", skills := ["english"], lang := ["english"],
    work_model := "remote", created := .absent, updated := .absent }

/-- The model `crossFieldBody` validates into at time 1. -/
def crossFieldModel : JobModel :=
  { title := "t", degree := { level := .associate, major := none },
    desc := "d", skills := ["english"], lang := [.en], work_model := .rm,
    created := 1, updated := none }

/-- C4: the uniqueness check compares the element count with the distinct
count and fails with the `List must be unique` error exactly on a duplicate;
a duplicate in `skills` or in `lang` makes validation of the whole payload
fail with that message among the collected errors and leaves the database
untouched (the rejection happens before the insert); and the check is
per-field only — the same string occurring in both `skills` and `lang` is
accepted. -/
theorem unique_list_validation_guards_create :
    (∀ (v : List String),
      validate_unique_list v = .error "List must be unique" ↔ ¬ v.Nodup) ∧
    (∀ (b : JobBody) (now : Nat) (freshId : String) (db : JobDB),
      ¬ b.skills.Nodup ∨ ¬ b.lang.Nodup →
      ∃ es, parseJobModel b now = .error es ∧ "List must be unique" ∈ es ∧
        postJobEndpoint b now freshId db = (.error es, db)) ∧
    parseJobModel crossFieldBody 1 = .ok crossFieldModel := by
  refine ⟨fun v => validate_unique_list_error_iff v, ?_, by decide⟩
  intro b now freshId db hdup
  have key : ∃ es, parseJobModel b now = .error es ∧ "List must be unique" ∈ es := by
    rcases hdup with hs | hl
    · apply parseJobModel_skills_error b now
      have hv := (validate_unique_list_error_iff b.skills).mpr hs
      unfold parseUniqueStrList
      rw [hv]
    · apply parseJobModel_lang_error b now
      have hv := (validate_unique_list_error_iff b.lang).mpr hl
      unfold parseLangField
      rw [hv]
  obtain ⟨es, h1, h2⟩ := key
  refine ⟨es, h1, h2, ?_⟩
  unfold postJobEndpoint
  rw [h1]

/-- A POST body with a duplicated `skills` entry. -/
def dupSkillsBody : JobBody :=
  { title := "t", degreeLevel := "associate", degreeMajor := none,
    desc := "d", skills := ["go", "go"], lang := ["english"],
    work_model := "remote", created := .absent, updated := .absent }

/-- C4 witness: the theorem applied to the concrete duplicate-skills body;
the endpoint rejects with the uniqueness message and leaves the (empty)
database untouched. -/
theorem unique_list_validation_guards_create_witness :
    postJobEndpoint dupSkillsBody 1 oidC [] =
      (.error ["List must be unique"], []) := by
  obtain ⟨es, h1, h2, h3⟩ :=
    unique_list_validation_guards_create.2.1 dupSkillsBody 1 oidC []
      (Or.inl (by decide))
  have hc : parseJobModel dupSkillsBody 1 = .error ["List must be unique"] := by
    decide
  rw [h1] at hc
  injection hc with hc2
  rw [← hc2]
  exact h3

/-- C9 counterexample: the claim says `bachelor` and `master` are accepted,
but the enum values are the plural strings: `bachelor` is rejected while
`bachelors` is accepted. -/
theorem degree_level_bachelor_rejected :
    DegreeEnum.parse "bachelor" = none ∧
    DegreeModel.parse "bachelor" none = none ∧
    DegreeEnum.parse "bachelors" = some .bachelor := by decide

/-- C9 amended: `degree.level` accepts exactly the four enum member values
`associate`, `bachelors`, `masters`, `phd`, and a degree object is accepted
exactly when its level is. -/
theorem degree_level_accepted_values :
    ∀ (s : String) (major : Option String),
      ((DegreeEnum.parse s).isSome ↔
        s = "associate" ∨ s = "bachelors" ∨ s = "masters" ∨ s = "phd") ∧
      ((DegreeModel.parse s major).isSome ↔ (DegreeEnum.parse s).isSome) := by
  intro s major
  constructor
  · unfold DegreeEnum.parse
    split_ifs with h1 h2 h3 h4 <;> simp_all
  · unfold DegreeModel.parse
    cases DegreeEnum.parse s <;> simp

/-- An absent or null optional body field validates to `None`. -/
theorem parseOptField_noneLike {α β : Type} (f : α → Except (List String) β)
    (fv : FieldVal α) (h : fv = .absent ∨ fv = .null) :
    parseOptField f fv = .ok (none : Option β) := by
  rcases h with h | h <;> rw [h] <;> rfl

/-- The record used in the C5 counterexample, already carrying an `updated`
timestamp of 7. -/
def docC5 : JobDoc :=
  { title := "Old", degree := { level := .master, major := some "CS" },
    desc := "dd", skills := ["py"], lang := [.fr], work_model := .hy,
    created := some 3, updated := some 7 }

/-- A one-record database holding `docC5` under `ObjectId(oidB)`. -/
def dbC5 : JobDB := [(.oid oidB, docC5)]

/-- A PUT body supplying a new `title` and explicitly nulling `updated`. -/
def bodyC5 : UpdateBody :=
  { title := .val "New", degree := .absent, desc := .absent, skills := .absent,
    lang := .absent, work_model := .absent, updated := .null }

/-- The model `bodyC5` validates into (at any time): the explicit null
overrides the `updated` default factory. -/
def mC5 : UpdateJobModel :=
  { title := some "New", degree := none, desc := none, skills := none,
    lang := none, work_model := none, updated := none }

/-- `docC5` after the C5 update: only `title` changed. -/
def docC5after : JobDoc := { docC5 with title := "New" }

/-- C5 counterexample: an update that succeeds and writes a field (`title`)
while the caller explicitly nulls `updated` — the stored `updated` stays at
its old value 7 and is not refreshed to the request time 100, contradicting
the claim that every successful writing update refreshes it. -/
theorem update_explicit_null_updated_not_refreshed :
    parseUpdateBody bodyC5 100 = .ok mC5 ∧
    1 ≤ mC5.strippedSize ∧
    appUpdateJob oidB mC5 dbC5 =
      (.ok (serializeJob oidB docC5after), [(.oid oidB, docC5after)]) ∧
    docC5after.title = "New" ∧
    docC5after.updated = docC5.updated ∧
    docC5after.updated = some 7 ∧
    ¬ docC5after.updated = some 100 := by decide

/-- C5 amended: on a successful update with a non-empty stripped field set,
the stored document becomes the old document with the `$set` applied, and
its `updated` field equals the `updated` entry of the parsed body whenever
that entry is non-null — the caller-supplied value, or the parse-time `now`
filled in by the default factory when the key was omitted; when the caller
explicitly null-ed `updated` the stored value is left unchanged. -/
theorem update_sets_updated_from_parsed_body :
    ∀ (b : UpdateBody) (now : Nat) (m : UpdateJobModel) (id : String)
      (db : JobDB) (d0 : JobDoc),
      parseUpdateBody b now = .ok m →
      1 ≤ m.strippedSize →
      isValidObjectId id →
      findOne (.oid id) db = some d0 →
      (appUpdateJob id m db).1 = .ok (serializeJob id (applySet m d0)) ∧
      findOne (.oid id) (appUpdateJob id m db).2 = some (applySet m d0) ∧
      (∀ t, m.updated = some t → (applySet m d0).updated = some t) ∧
      (m.updated = none → (applySet m d0).updated = d0.updated) ∧
      (b.updated = .absent → m.updated = some now) := by
  intro b now m id db d0 hp hsize hvalid hfind
  obtain ⟨hw1, hw2⟩ := appUpdateJob_write id m db d0 hsize hvalid hfind
  refine ⟨hw1, hw2, ?_, ?_, ?_⟩
  · intro t ht
    simp [applySet, ht]
  · intro ht
    simp [applySet, ht]
  · intro habs
    have f7 := (parseUpdateBody_ok_fields b now m hp).2.2.2.2.2.2
    rw [habs] at f7
    simp only [parseUpdUpdatedField] at f7
    injection f7 with f7e
    exact f7e.symm

/-- The PUT body of the C5 witness: only `title` supplied, `updated`
omitted. -/
def bodyC5w : UpdateBody :=
  { title := .val "w", degree := .absent, desc := .absent, skills := .absent,
    lang := .absent, work_model := .absent, updated := .absent }

/-- The model `bodyC5w` validates into at time 11: the default factory fills
`updated := 11`. -/
def mC5w : UpdateJobModel :=
  { title := some "w", degree := none, desc := none, skills := none,
    lang := none, work_model := none, updated := some 11 }

/-- C5 witness: the amended theorem applied at a concrete update. -/
theorem update_sets_updated_from_parsed_body_witness :
    (appUpdateJob oidA mC5w dbOne).1 =
      .ok (serializeJob oidA (applySet mC5w baseDoc)) :=
  (update_sets_updated_from_parsed_body bodyC5w 11 mC5w oidA dbOne baseDoc
    (by decide) (by decide) (by decide) (by decide)).1

/-- The record used in the C6 counterexample. -/
def docC6 : JobDoc :=
  { title := "T6", degree := { level := .phd, major := none }, desc := "x6",
    skills := ["sql"], lang := [.de], work_model := .os,
    created := some 4, updated := some 9 }

/-- A one-record database holding `docC6` under `ObjectId(oidA)`. -/
def dbC6 : JobDB := [(.oid oidA, docC6)]

/-- A PUT body supplying only `title`, all other fields explicitly null. -/
def bodyC6 : UpdateBody :=
  { title := .val "T6b", degree := .null, desc := .null, skills := .null,
    lang := .null, work_model := .null, updated := .null }

/-- The model `bodyC6` validates into. -/
def mC6 : UpdateJobModel :=
  { title := some "T6b", degree := none, desc := none, skills := none,
    lang := none, work_model := none, updated := none }

/-- `docC6` after the C6 update: only `title` changed. -/
def docC6after : JobDoc := { docC6 with title := "T6b" }

/-- C6 counterexample: an update supplying only `title` with every other
field null — which the claim covers via "all other fields absent/null" —
changes `title` and leaves the rest untouched, but does *not* refresh
`updated` (it stays 9 instead of the request time 200), because the
explicit null on `updated` removes it from the `$set`. -/
theorem title_only_null_updated_not_refreshed :
    parseUpdateBody bodyC6 200 = .ok mC6 ∧
    appUpdateJob oidA mC6 dbC6 =
      (.ok (serializeJob oidA docC6after), [(.oid oidA, docC6after)]) ∧
    docC6after.title = "T6b" ∧
    docC6after.updated = some 9 ∧
    ¬ docC6after.updated = some 200 ∧
    docC6after.degree = docC6.degree ∧
    docC6after.created = docC6.created := by decide

/-- C6 amended: an update whose body supplies only `title` (the other
content fields absent or null) with `updated` *omitted* changes `title`,
refreshes `updated` to the parse-time `now`, and leaves `degree`, `desc`,
`skills`, `lang`, `work_model` and `created` unchanged — stated on the
stored document (via `findOne` on the resulting database) for *both*
handler variants, not just on the serialized response; when `updated` is
explicitly null it too is left unchanged (the counterexample above). -/
theorem title_only_update_frame :
    ∀ (b : UpdateBody) (now : Nat) (m : UpdateJobModel) (id : String)
      (db : JobDB) (d0 : JobDoc) (x : String),
      parseUpdateBody b now = .ok m →
      b.title = .val x →
      (b.degree = .absent ∨ b.degree = .null) →
      (b.desc = .absent ∨ b.desc = .null) →
      (b.skills = .absent ∨ b.skills = .null) →
      (b.lang = .absent ∨ b.lang = .null) →
      (b.work_model = .absent ∨ b.work_model = .null) →
      b.updated = .absent →
      isValidObjectId id →
      findOne (.oid id) db = some d0 →
      (appUpdateJob id m db).1 =
        .ok (serializeJob id { d0 with title := x, updated := some now }) ∧
      findOne (.oid id) (appUpdateJob id m db).2 =
        some { d0 with title := x, updated := some now } ∧
      (routesUpdateJob id m db).1 =
        .ok (some (serializeJob id { d0 with title := x, updated := some now })) ∧
      findOne (.oid id) (routesUpdateJob id m db).2 =
        some { d0 with title := x, updated := some now } := by
  intro b now m id db d0 x hp ht hdg hds hsk hlg hwm hup hvalid hfind
  obtain ⟨f1, f2, f3, f4, f5, f6, f7⟩ := parseUpdateBody_ok_fields b now m hp
  rw [ht] at f1
  rw [parseOptField_noneLike _ _ hdg] at f2
  rw [parseOptField_noneLike _ _ hds] at f3
  rw [parseOptField_noneLike _ _ hsk] at f4
  rw [parseOptField_noneLike _ _ hlg] at f5
  rw [parseOptField_noneLike _ _ hwm] at f6
  rw [hup] at f7
  simp only [parseOptField, Except.map] at f1
  simp only [parseUpdUpdatedField] at f7
  have hm : m = UpdateJobModel.mk (some x) none none none none none (some now) := by
    obtain ⟨t, dg, ds, sk, lg, wm, up⟩ := m
    simp_all
  subst hm
  have hsize :
      1 ≤ (UpdateJobModel.mk (some x) none none none none none (some now)).strippedSize := by
    simp [UpdateJobModel.strippedSize]
  have happ :
      applySet (UpdateJobModel.mk (some x) none none none none none (some now)) d0 =
        { d0 with title := x, updated := some now } := by
    simp [applySet]
  obtain ⟨hw1, hw2⟩ := appUpdateJob_write id _ db d0 hsize hvalid hfind
  obtain ⟨hr1, hr2⟩ := routesUpdateJob_write id _ db d0 hsize hvalid hfind
  rw [happ] at hw1 hw2 hr1 hr2
  exact ⟨hw1, hw2, hr1, hr2⟩

/-- The PUT body of the C6 witness: `title` supplied, the rest a mix of
absent and null, `updated` omitted. -/
def bodyC6w : UpdateBody :=
  { title := .val "N", degree := .absent, desc := .null, skills := .absent,
    lang := .null, work_model := .absent, updated := .absent }

/-- The model `bodyC6w` validates into at time 33. -/
def mC6w : UpdateJobModel :=
  { title := some "N", degree := none, desc := none, skills := none,
    lang := none, work_model := none, updated := some 33 }

/-- A one-record database holding `baseDoc` under `ObjectId(oidB)`. -/
def dbB : JobDB := [(.oid oidB, baseDoc)]

/-- C6 witness: the amended theorem applied at a concrete title-only
update. -/
theorem title_only_update_frame_witness :
    (appUpdateJob oidB mC6w dbB).1 =
      .ok (serializeJob oidB { baseDoc with title := "N", updated := some 33 }) :=
  (title_only_update_frame bodyC6w 33 mC6w oidB dbB baseDoc "N"
    (by decide) (by decide) (Or.inl (by decide)) (Or.inr (by decide))
    (Or.inl (by decide)) (Or.inr (by decide)) (Or.inl (by decide))
    (by decide) (by decide) (by decide)).1

/-- C7: for a well-formed identifier on a collection with pairwise distinct
keys, `delete_job` succeeds (204) exactly when `deleted_count = 1`, i.e.
exactly when the identifier is present; any other outcome is the 404
not-found failure with nothing removed; and after a successful delete, a
second delete of the same identifier answers 404.  The router variant
agrees on the success condition. -/
theorem delete_204_iff_removed :
    ∀ (id : String) (db : JobDB),
      isValidObjectId id → (db.map Prod.fst).Nodup →
      (((appDeleteJob id db).1 = .ok ()) ↔ (deleteOne (.oid id) db).1 = 1) ∧
      (((appDeleteJob id db).1 = .ok ()) ↔ (.oid id) ∈ db.map Prod.fst) ∧
      ((appDeleteJob id db).1 ≠ .ok () →
        (appDeleteJob id db).1 = .error .notFound ∧
        (deleteOne (.oid id) db).1 = 0) ∧
      ((appDeleteJob id db).1 = .ok () →
        (appDeleteJob id (appDeleteJob id db).2).1 = .error .notFound) ∧
      (((routesDeleteJob id db).1 = .ok ()) ↔ (.oid id) ∈ db.map Prod.fst) := by
  intro id db hvalid hnd
  have hdel := deleteOne_fst (.oid id) db
  by_cases hmem : (.oid id) ∈ db.map Prod.fst
  · rw [if_pos hmem] at hdel
    have happ : appDeleteJob id db = (.ok (), (deleteOne (.oid id) db).2) := by
      simp [appDeleteJob, hvalid, hdel]
    have hnotmem := deleteOne_not_mem (.oid id) db hnd
    have hdel2 := deleteOne_fst (.oid id) (deleteOne (.oid id) db).2
    rw [if_neg hnotmem] at hdel2
    have hfo : findOne (.oid id) db ≠ none := by
      intro hn
      have := (findOne_isSome_iff (.oid id) db).mpr hmem
      rw [hn] at this
      simp at this
    refine ⟨?_, ?_, ?_, ?_, ?_⟩
    · simp [happ, hdel]
    · simp [happ, hmem]
    · intro h
      exact absurd (by simp [happ]) h
    · intro _
      rw [happ]
      simp [appDeleteJob, hvalid, hdel2]
    · rcases ho : findOne (.oid id) db with _ | d
      · exact absurd ho hfo
      · simp [routesDeleteJob, hvalid, ho, hmem]
  · rw [if_neg hmem] at hdel
    have happ : appDeleteJob id db =
        (.error .notFound, (deleteOne (.oid id) db).2) := by
      simp [appDeleteJob, hvalid, hdel]
    have hfo : findOne (.oid id) db = none := by
      rcases ho : findOne (.oid id) db with _ | d
      · rfl
      · exact absurd ((findOne_isSome_iff (.oid id) db).mp (by simp [ho])) hmem
    refine ⟨?_, ?_, ?_, ?_, ?_⟩
    · simp [happ, hdel]
    · simp [happ, hmem]
    · intro _
      exact ⟨by simp [happ], hdel⟩
    · intro h
      rw [happ] at h
      simp at h
    · simp [routesDeleteJob, hvalid, hfo, hmem]

/-- C7 witness: deleting the only record of a one-record database
succeeds. -/
theorem delete_204_iff_removed_witness :
    (appDeleteJob oidA dbOne).1 = .ok () :=
  (delete_204_iff_removed oidA dbOne (by decide) (by decide)).2.1.mpr (by decide)

/-- C8 counterexample: in `src/app.py` a malformed identifier is *not*
surfaced as a client error: `ObjectId("zzz")` raises `InvalidId`, which no
handler catches, so the request fails with HTTP 500 — a server error —
contradicting the claim that the operations fail with a client error. -/
theorem malformed_id_app_500 :
    appShowJob "zzz" [] = .error .invalidIdRaised ∧
    (appDeleteJob "zzz" []).1 = .error .invalidIdRaised ∧
    ApiError.invalidIdRaised.status = 500 ∧
    isClientErrorStatus ApiError.invalidIdRaised.status = false := by decide

/-- C8 amended: malformed identifiers are a failure mode distinct from
not-found in both handler variants — the router rejects them with a 422
client validation error before the handler runs, while the `src/app.py`
handlers raise the identifier-parse exception, surfaced as a 500 server
error (in the update handler only when the stripped field set is
non-empty, since the empty branch never parses the id); and a well-formed
but absent identifier yields the 404 not-found failure, never a validation
failure. -/
theorem malformed_id_distinct_failure_mode :
    ∀ (id : String) (db : JobDB) (m : UpdateJobModel),
      (isValidObjectId id = false →
        routesShowJob id db = .error .unprocessable ∧
        (routesUpdateJob id m db).1 = .error .unprocessable ∧
        (routesDeleteJob id db).1 = .error .unprocessable ∧
        isClientErrorStatus ApiError.unprocessable.status = true ∧
        ApiError.unprocessable.status ≠ ApiError.notFound.status ∧
        appShowJob id db = .error .invalidIdRaised ∧
        (appDeleteJob id db).1 = .error .invalidIdRaised ∧
        (1 ≤ m.strippedSize → (appUpdateJob id m db).1 = .error .invalidIdRaised) ∧
        ApiError.invalidIdRaised.status ≠ ApiError.notFound.status) ∧
      (isValidObjectId id = true → findOne (.oid id) db = none →
        routesShowJob id db = .error .notFound ∧
        appShowJob id db = .error .notFound) := by
  intro id db m
  constructor
  · intro hbad
    refine ⟨?_, ?_, ?_, by decide, by decide, ?_, ?_, ?_, by decide⟩
    · simp [routesShowJob, hbad]
    · simp [routesUpdateJob, hbad]
    · simp [routesDeleteJob, hbad]
    · simp [appShowJob, hbad]
    · simp [appDeleteJob, hbad]
    · intro hs
      simp [appUpdateJob, hs, hbad]
  · intro hok hnone
    exact ⟨by simp [routesShowJob, hok, hnone], by simp [appShowJob, hok, hnone]⟩

/-- C8 witness: the amended theorem applied at the malformed id `zzz`. -/
theorem malformed_id_distinct_failure_mode_witness :
    routesShowJob "zzz" [] = .error .unprocessable :=
  ((malformed_id_distinct_failure_mode "zzz" [] nullUpdate).1 (by decide)).1

/-- C10: when a PUT body omits the `updated` key, the default factory fills
the parse-time `now`, so the validated model has `updated = some now` and
the stripped dict is non-empty — `update_job` therefore takes the write
branch, never the empty-update branch; conversely, the stripped dict can
only be empty when the body explicitly set `updated` to null. -/
theorem default_updated_blocks_noop_branch :
    ∀ (b : UpdateBody) (now : Nat) (m : UpdateJobModel),
      parseUpdateBody b now = .ok m →
      (b.updated = .absent → m.updated = some now ∧ 1 ≤ m.strippedSize) ∧
      (m.strippedSize = 0 → b.updated = .null) := by
  intro b now m hp
  have f7 := (parseUpdateBody_ok_fields b now m hp).2.2.2.2.2.2
  constructor
  · intro habs
    rw [habs] at f7
    simp only [parseUpdUpdatedField] at f7
    injection f7 with f7e
    have hupd : m.updated = some now := f7e.symm
    refine ⟨hupd, ?_⟩
    simp only [UpdateJobModel.strippedSize, hupd, Option.isSome_some, if_true]
    omega
  · intro hzero
    have hupd : m.updated = none := by
      rcases hm : m.updated with _ | t
      · rfl
      · exfalso
        simp only [UpdateJobModel.strippedSize, hm, Option.isSome_some,
          if_true] at hzero
        omega
    rw [hupd] at f7
    cases hb : b.updated with
    | absent =>
      rw [hb] at f7
      simp [parseUpdUpdatedField] at f7
    | null => rfl
    | val v =>
      rw [hb] at f7
      simp only [parseUpdUpdatedField] at f7
      split at f7 <;> simp_all

/-- A PUT body with every field omitted. -/
def allAbsentBody : UpdateBody :=
  { title := .absent, degree := .absent, desc := .absent, skills := .absent,
    lang := .absent, work_model := .absent, updated := .absent }

/-- The model `allAbsentBody` validates into at time 50: only the `updated`
default factory fires. -/
def mAllAbsent : UpdateJobModel :=
  { title := none, degree := none, desc := none, skills := none, lang := none,
    work_model := none, updated := some 50 }

/-- C10 witness: the theorem applied at the empty body `{}`. -/
theorem default_updated_blocks_noop_branch_witness :
    mAllAbsent.updated = some 50 ∧ 1 ≤ mAllAbsent.strippedSize :=
  (default_updated_blocks_noop_branch allAbsentBody 50 mAllAbsent
    (by decide)).1 (by decide)

end JobApi
